import Mathlib

/-!
Verification development for the `b15f-rs` driver (`src/lib.rs`).

The driver talks to a B15F hardware board over a serial transport.  We embed
the command codec, the board-session construction and the discovery scan as
pure Lean functions over a deterministic transport oracle, and record the
sequence of transport calls (write_all / flush / read_exact) that each
operation performs, so that temporal claims about flushing and about
"no bytes sent" can be stated as facts about the emitted trace.

Bytes are modelled as `Nat` (values < 256 where it matters); the serial
transport is modelled by a structure saying whether `write_all` and `flush`
succeed and which bytes the single `read_exact` call of an operation would
deliver (`none` models an I/O failure such as a timeout).
-/

/-- Decidable equality for `Except` results. -/
instance {ε α : Type} [DecidableEq ε] [DecidableEq α] : DecidableEq (Except ε α) :=
  fun x y =>
    match x, y with
    | .ok a, .ok b =>
      if h : a = b then isTrue (by rw [h]) else isFalse (by simp [h])
    | .error a, .error b =>
      if h : a = b then isTrue (by rw [h]) else isFalse (by simp [h])
    | .ok _, .error _ => isFalse (by simp)
    | .error _, .ok _ => isFalse (by simp)

namespace B15FRS

/-- Serial baud rate constant `BAUD` from the source. -/
def BAUD : Nat := 57600

/-- `MSG_OK`: the status-OK sentinel byte `0xFF`. -/
def MSG_OK : Nat := 0xFF

/-- Request opcode `RQ_TEST`. -/
def RQ_TEST : Nat := 1

/-- Request opcode `RQ_DIGITAL_WRITE_0`. -/
def RQ_DIGITAL_WRITE_0 : Nat := 5

/-- Request opcode `RQ_DIGITAL_WRITE_1`. -/
def RQ_DIGITAL_WRITE_1 : Nat := 6

/-- Request opcode `RQ_DIGITAL_READ_0`. -/
def RQ_DIGITAL_READ_0 : Nat := 7

/-- Request opcode `RQ_DIGITAL_READ_1`. -/
def RQ_DIGITAL_READ_1 : Nat := 8

/-- Request opcode `RQ_ANALOG_WRITE_0`. -/
def RQ_ANALOG_WRITE_0 : Nat := 10

/-- Request opcode `RQ_ANALOG_WRITE_1`. -/
def RQ_ANALOG_WRITE_1 : Nat := 11

/-- Request opcode `RQ_ANALOG_READ`. -/
def RQ_ANALOG_READ : Nat := 12

/-- Request opcode `RQ_PWM_SET_FREQ`. -/
def RQ_PWM_SET_FREQ : Nat := 14

/-- Request opcode `RQ_PWM_SET_VALUE`. -/
def RQ_PWM_SET_VALUE : Nat := 15

/-- The digital/analog-write port selector `enum Port { Port0, Port1 }`. -/
inductive Port
  | Port0
  | Port1
deriving DecidableEq, Repr

/-- `enum B15FCommandError` from the source: board-reported failure,
serial-port error, or I/O error (error payloads elided). -/
inductive B15FCommandError
  | B15FError
  | SerialPortError
  | IoError
deriving DecidableEq, Repr

/-- `enum B15FInitError` from the source (error payloads elided except the
wrapped command error). -/
inductive B15FInitError
  | CommandError (e : B15FCommandError)
  | DeviceNotFound
  | DeviceNotSupported
  | SerialPortError
deriving DecidableEq, Repr

/-- One observable call on the serial transport: `write_all` with the given
bytes, `flush`, or `read_exact` of the given byte count.  The trace records
the call being made, whether or not it succeeds. -/
inductive Ev
  | writeAll (bytes : List Nat)
  | flushCall
  | readExact (n : Nat)
deriving DecidableEq, Repr

/-- Deterministic oracle for the serial transport during one operation:
whether `write_all` succeeds, whether `flush` succeeds, and the bytes the
operation's single `read_exact` call would deliver (`none` = I/O error,
e.g. a timeout). -/
structure Transport where
  writeOk : Bool
  flushOk : Bool
  readData : Option (List Nat)
deriving DecidableEq, Repr

/-- `read_exact` into a buffer of `n` bytes: succeeds exactly when the
oracle has data of the right length. -/
def Transport.readExact (t : Transport) (n : Nat) : Option (List Nat) :=
  match t.readData with
  | none => none
  | some l => if l.length = n then some l else none

/-- A transport on which both `write_all` and `flush` succeed and
`read_exact` delivers `l`. -/
def okT (l : List Nat) : Transport :=
  { writeOk := true, flushOk := true, readData := some l }

/-- Result of an operation that can also abort by panicking
(`panic!` / failed `assert!` in the source). -/
inductive Outcome (α : Type)
  | ok (a : α)
  | err (e : B15FCommandError)
  | panicked (msg : String)
deriving DecidableEq, Repr

/-- `B15F::test`: sends `[RQ_TEST, rand]` (no flush in the source!), reads a
2-byte response `[status, echo]`; a non-OK status is a board error, and the
result is whether the echoed byte equals the random byte.  `rand` models the
byte drawn from `random::<u8>()`.  Returns the transport-call trace together
with the result. -/
def test (rand : Nat) (t : Transport) : List Ev × Except B15FCommandError Bool :=
  let data := [RQ_TEST, rand]
  if t.writeOk then
    let tr := [Ev.writeAll data, Ev.readExact 2]
    match t.readExact 2 with
    | none => (tr, .error .IoError)
    | some resp =>
      if resp.headD 0 ≠ MSG_OK then (tr, .error .B15FError)
      else (tr, .ok (decide (resp.getD 1 0 = rand)))
  else ([Ev.writeAll data], .error .IoError)

/-- `B15F::digital_write`: sends `[opcode(port), value]`, flushes, reads a
1-byte status; OK means success, anything else is a board error. -/
def digital_write (port : Port) (value : Nat) (t : Transport) :
    List Ev × Except B15FCommandError Unit :=
  let request :=
    match port with
    | .Port0 => RQ_DIGITAL_WRITE_0
    | .Port1 => RQ_DIGITAL_WRITE_1
  let data := [request, value]
  if t.writeOk then
    if t.flushOk then
      let tr := [Ev.writeAll data, Ev.flushCall, Ev.readExact 1]
      match t.readExact 1 with
      | none => (tr, .error .IoError)
      | some resp =>
        if resp.headD 0 = MSG_OK then (tr, .ok ()) else (tr, .error .B15FError)
    else ([Ev.writeAll data, Ev.flushCall], .error .IoError)
  else ([Ev.writeAll data], .error .IoError)

/-- `B15F::send_digital_read_request`: sends the 1-byte request for the
given digital port and flushes. -/
def send_digital_read_request (port : Port) (t : Transport) :
    List Ev × Except B15FCommandError Unit :=
  let request :=
    match port with
    | .Port0 => RQ_DIGITAL_READ_0
    | .Port1 => RQ_DIGITAL_READ_1
  let data := [request]
  if t.writeOk then
    if t.flushOk then
      ([Ev.writeAll data, Ev.flushCall], .ok ())
    else ([Ev.writeAll data, Ev.flushCall], .error .IoError)
  else ([Ev.writeAll data], .error .IoError)

/-- `u8::reverse_bits` on a byte: bit `i` of the result is bit `7 - i` of
the argument (only the low 8 bits of the argument are relevant). -/
def reverseBits8 (b : Nat) : Nat :=
  (List.range 8).foldl (fun acc i => acc * 2 + b / 2 ^ i % 2) 0

/-- `B15F::read_digital_response`: reads one byte and returns its
bit-reversal. -/
def read_digital_response (t : Transport) :
    List Ev × Except B15FCommandError Nat :=
  match t.readExact 1 with
  | none => ([Ev.readExact 1], .error .IoError)
  | some resp => ([Ev.readExact 1], .ok (reverseBits8 (resp.headD 0)))

/-- `B15F::digital_read`: request, flush, then read and bit-reverse. -/
def digital_read (port : Port) (t : Transport) :
    List Ev × Except B15FCommandError Nat :=
  let s := send_digital_read_request port t
  match s.2 with
  | .error e => (s.1, .error e)
  | .ok _ =>
    let r := read_digital_response t
    (s.1 ++ r.1, r.2)

/-- `B15F::analog_write`: panics when `value > 1023` (before touching the
transport), otherwise sends `[opcode(port), value & 0xFF, value >> 8]`,
flushes, reads a 1-byte status; OK means success. -/
def analog_write (port : Port) (value : Nat) (t : Transport) :
    List Ev × Outcome Unit :=
  let request :=
    match port with
    | .Port0 => RQ_ANALOG_WRITE_0
    | .Port1 => RQ_ANALOG_WRITE_1
  if value > 1023 then
    ([], .panicked "analog write value must be between 0 and 1023")
  else
    let data := [request, value % 256, value / 256 % 256]
    if t.writeOk then
      if t.flushOk then
        let tr := [Ev.writeAll data, Ev.flushCall, Ev.readExact 1]
        match t.readExact 1 with
        | none => (tr, .err .IoError)
        | some resp =>
          if resp.headD 0 = MSG_OK then (tr, .ok ()) else (tr, .err .B15FError)
      else ([Ev.writeAll data, Ev.flushCall], .err .IoError)
    else ([Ev.writeAll data], .err .IoError)

/-- `B15F::send_analog_read_request`: asserts `port <= 7` (panicking before
touching the transport otherwise), then sends `[RQ_ANALOG_READ, port]` and
flushes. -/
def send_analog_read_request (port : Nat) (t : Transport) :
    List Ev × Outcome Unit :=
  if port > 7 then
    ([], .panicked "analog read port must be between 0 and 7")
  else
    let data := [RQ_ANALOG_READ, port]
    if t.writeOk then
      if t.flushOk then
        ([Ev.writeAll data, Ev.flushCall], .ok ())
      else ([Ev.writeAll data, Ev.flushCall], .err .IoError)
    else ([Ev.writeAll data], .err .IoError)

/-- `B15F::read_analog_response`: reads two bytes `[lo, hi]` and returns
`u16::from_le_bytes([lo, hi]) = lo + 256 * hi`; no status check. -/
def read_analog_response (t : Transport) :
    List Ev × Except B15FCommandError Nat :=
  match t.readExact 2 with
  | none => ([Ev.readExact 2], .error .IoError)
  | some resp => ([Ev.readExact 2], .ok (resp.headD 0 + 256 * resp.getD 1 0))

/-- `B15F::analog_read`: request (with the domain assertion), flush, then
read the little-endian 16-bit value. -/
def analog_read (port : Nat) (t : Transport) : List Ev × Outcome Nat :=
  let s := send_analog_read_request port t
  match s.2 with
  | .panicked m => (s.1, .panicked m)
  | .err e => (s.1, .err e)
  | .ok _ =>
    let r := read_analog_response t
    match r.2 with
    | .error e => (s.1 ++ r.1, .err e)
    | .ok v => (s.1 ++ r.1, .ok v)

/-- `B15F::set_pwm_frequency`: sends the opcode followed by the four
little-endian bytes of the IEEE-754 `f32` frequency (modelled abstractly as
the four bytes `b0..b3`), flushes, reads one byte and returns it raw. -/
def set_pwm_frequency (b0 b1 b2 b3 : Nat) (t : Transport) :
    List Ev × Except B15FCommandError Nat :=
  let data := [RQ_PWM_SET_FREQ, b0, b1, b2, b3]
  if t.writeOk then
    if t.flushOk then
      let tr := [Ev.writeAll data, Ev.flushCall, Ev.readExact 1]
      match t.readExact 1 with
      | none => (tr, .error .IoError)
      | some resp => (tr, .ok (resp.headD 0))
    else ([Ev.writeAll data, Ev.flushCall], .error .IoError)
  else ([Ev.writeAll data], .error .IoError)

/-- `B15F::set_pwm_vale` (sic): sends `[RQ_PWM_SET_VALUE, value]`, flushes,
reads a 1-byte status; OK means success. -/
def set_pwm_vale (value : Nat) (t : Transport) :
    List Ev × Except B15FCommandError Unit :=
  let data := [RQ_PWM_SET_VALUE, value]
  if t.writeOk then
    if t.flushOk then
      let tr := [Ev.writeAll data, Ev.flushCall, Ev.readExact 1]
      match t.readExact 1 with
      | none => (tr, .error .IoError)
      | some resp =>
        if resp.headD 0 = MSG_OK then (tr, .ok ()) else (tr, .error .B15FError)
    else ([Ev.writeAll data, Ev.flushCall], .error .IoError)
  else ([Ev.writeAll data], .error .IoError)

/-- `B15F::from`: runs one `test` handshake on the given transport; an
error from `test` propagates wrapped as `CommandError`, a clean `false`
result (echo mismatch with OK status) becomes `DeviceNotSupported`. -/
def fromTransport (rand : Nat) (t : Transport) :
    List Ev × Except B15FInitError Unit :=
  let r := test rand t
  match r.2 with
  | .error e => (r.1, .error (.CommandError e))
  | .ok pass => if pass then (r.1, .ok ()) else (r.1, .error .DeviceNotSupported)

/-- `serialport::SerialPortType` as matched by `port_priority` (the USB
variant's payload is elided — the source ignores it). -/
inductive SerialPortType
  | UsbPort
  | PciPort
  | BluetoothPort
  | Unknown
deriving DecidableEq, Repr

/-- `serialport::SerialPortInfo`: an endpoint name plus its connection-type
classification. -/
structure SerialPortInfo where
  port_name : String
  port_type : SerialPortType
deriving DecidableEq, Repr

/-- `port_priority`: the sort key used by discovery — USB = 0, PCI = 1,
Bluetooth = 2, Unknown = 3. -/
def port_priority (port : SerialPortInfo) : Nat :=
  match port.port_type with
  | .UsbPort => 0
  | .PciPort => 1
  | .BluetoothPort => 2
  | .Unknown => 3

/-- Whether a list is sorted (non-strictly ascending) under the key `key`. -/
def sortedByKey {α : Type} (key : α → Nat) : List α → Bool
  | [] => true
  | [_] => true
  | a :: b :: rest => decide (key a ≤ key b) && sortedByKey key (b :: rest)

/-- The documented contract of Rust's `slice::sort_unstable_by_key`, the
sort used by `B15F::instance`: the output is a permutation of the input and
is sorted by the key.  Nothing more is guaranteed — in particular the
relative order of key-equal elements is unspecified ("This sort is
unstable"). -/
def unstableSortByKeyPost {α : Type} (key : α → Nat) (l l' : List α) : Prop :=
  l.Perm l' ∧ sortedByKey key l' = true

instance {α : Type} [DecidableEq α] (key : α → Nat) (l l' : List α) :
    Decidable (unstableSortByKeyPost key l l') :=
  inferInstanceAs (Decidable (l.Perm l' ∧ sortedByKey key l' = true))

/-- The environment discovery finds at one candidate endpoint: whether the
native serial open succeeds, and — for each of the two `test` round trips
the scan can perform on it — the random byte drawn and the transport's
behaviour. -/
structure CandidateEnv where
  openOk : Bool
  r1 : Nat
  t1 : Transport
  r2 : Nat
  t2 : Transport
deriving DecidableEq, Repr

/-- A discovery candidate: the enumerated endpoint descriptor together with
the environment probing it would encounter. -/
structure Candidate where
  info : SerialPortInfo
  env : CandidateEnv
deriving DecidableEq, Repr

/-- `B15F::open_port` at a candidate: a failed native open surfaces as
`SerialPortError`, otherwise `B15F::from` runs the construction handshake. -/
def open_port (env : CandidateEnv) : Except B15FInitError Unit :=
  if env.openOk then (fromTransport env.r1 env.t1).2
  else .error .SerialPortError

/-- The per-candidate body of the `B15F::instance` loop:
`B15F::open_port(..).ok().and_then(|board| { board.test().ok()?; Some(board) })`.
Returns how many `test` round trips were performed and whether the candidate
is selected.  Note the second `test`'s boolean result is discarded by the
source (`board.test().ok()?;`): selection only requires it to return without
error. -/
def probeCandidate (env : CandidateEnv) : Nat × Bool :=
  if env.openOk then
    match (fromTransport env.r1 env.t1).2 with
    | .error _ => (1, false)
    | .ok _ =>
      match (test env.r2 env.t2).2 with
      | .error _ => (2, false)
      | .ok _ => (2, true)
  else (0, false)

/-- The `for port in ports` loop of `B15F::instance`: probe candidates in
order, return the first selected one; also records which candidates were
probed. -/
def scanPorts : List Candidate → List Candidate × Option Candidate
  | [] => ([], none)
  | c :: rest =>
    if (probeCandidate c.env).2 then ([c], some c)
    else
      let r := scanPorts rest
      (c :: r.1, r.2)

/-- `B15F::instance`: `serialport::available_ports().ok()?` — an enumeration
failure yields `None` immediately; otherwise the candidates, sorted by
`sort_unstable_by_key(port_priority)` (the `sorted` argument, constrained in
the theorems by `unstableSortByKeyPost`), are scanned in order.  Returns the
probed candidates and the selected board, `none` meaning no device found. -/
def instanceRun (enumResult : Option (List Candidate))
    (sorted : List Candidate) : List Candidate × Option Candidate :=
  match enumResult with
  | none => ([], none)
  | some _ => scanPorts sorted

/-- The opcode `digital_write` selects for a port. -/
def digital_write_opcode : Port → Nat
  | .Port0 => RQ_DIGITAL_WRITE_0
  | .Port1 => RQ_DIGITAL_WRITE_1

/-- The opcode `send_digital_read_request` selects for a port. -/
def digital_read_opcode : Port → Nat
  | .Port0 => RQ_DIGITAL_READ_0
  | .Port1 => RQ_DIGITAL_READ_1

/-- The opcode `analog_write` selects for a port. -/
def analog_write_opcode : Port → Nat
  | .Port0 => RQ_ANALOG_WRITE_0
  | .Port1 => RQ_ANALOG_WRITE_1

/-- Half-duplex discipline for one command round trip: the transport-call
trace is the full request write, then (if the write succeeded) the flush,
then (if the flush succeeded) the single read.  In particular no read ever
precedes the flush. -/
def writeFlushRead (req : List Nat) (n : Nat) (tr : List Ev) : Prop :=
  tr = [Ev.writeAll req] ∨ tr = [Ev.writeAll req, Ev.flushCall] ∨
    tr = [Ev.writeAll req, Ev.flushCall, Ev.readExact n]

/-- Example endpoint of Unknown connection type. -/
def unkPort : SerialPortInfo := ⟨"ttyS0", .Unknown⟩

/-- First example USB endpoint (earlier in enumeration order). -/
def usbPortA : SerialPortInfo := ⟨"ttyUSB0", .UsbPort⟩

/-- Example Bluetooth endpoint. -/
def btPort : SerialPortInfo := ⟨"rfcomm0", .BluetoothPort⟩

/-- Second example USB endpoint (later in enumeration order). -/
def usbPortB : SerialPortInfo := ⟨"ttyUSB1", .UsbPort⟩

/-- The enumeration order `[Unknown, USB, Bluetooth, USB]` from the spec's
discovery-ordering example. -/
def enumExample : List SerialPortInfo := [unkPort, usbPortA, btPort, usbPortB]

/-- A candidate whose serial open succeeds and whose construction handshake
passes (status OK, echo matches), but whose second `test` round trip hits an
I/O failure (no response bytes). -/
def envSecondTestFails : CandidateEnv :=
  { openOk := true, r1 := 5, t1 := okT [0xFF, 5],
    r2 := 5, t2 := { writeOk := true, flushOk := true, readData := none } }

/-- `envSecondTestFails` packaged as a discovery candidate. -/
def candSecondTestFails : Candidate := ⟨⟨"ttyUSB0", .UsbPort⟩, envSecondTestFails⟩

/-- A candidate that answers the handshake correctly exactly once: the
construction round trip echoes the random byte (status OK), the second round
trip answers status OK but a wrong echo (random byte 7, echo 8). -/
def envEchoOnce : CandidateEnv :=
  { openOk := true, r1 := 5, t1 := okT [0xFF, 5],
    r2 := 7, t2 := okT [0xFF, 8] }

/-- `envEchoOnce` packaged as a discovery candidate. -/
def candEchoOnce : Candidate := ⟨⟨"ttyUSB1", .UsbPort⟩, envEchoOnce⟩

/-- A candidate whose serial open fails. -/
def envOpenFails : CandidateEnv :=
  { openOk := false, r1 := 0, t1 := okT [], r2 := 0, t2 := okT [] }

/-- `envOpenFails` packaged as a discovery candidate. -/
def candOpenFails : Candidate := ⟨⟨"ttyS0", .Unknown⟩, envOpenFails⟩

set_option maxRecDepth 4000 in
/-- `reverseBits8` is the bit-reversal on bytes: bit `i` of the result is
bit `7 - i` of the argument. -/
theorem reverseBits8_testBit :
    ∀ b < 256, ∀ i < 8, (reverseBits8 b).testBit i = b.testBit (7 - i) := by
  decide

/-- The discovery loop returns the first candidate whose probe succeeds. -/
theorem scanPorts_snd_eq_find (l : List Candidate) :
    (scanPorts l).2 = l.find? fun c => (probeCandidate c.env).2 := by
  induction l with
  | nil => rfl
  | cons c rest ih =>
    by_cases h : (probeCandidate c.env).2 <;>
      simp [scanPorts, List.find?_cons, h, ih]

/-- When no candidate is selected, every candidate was probed: the scan
skips failures without aborting. -/
theorem scanPorts_none_fst (l : List Candidate) :
    (scanPorts l).2 = none → (scanPorts l).1 = l := by
  induction l with
  | nil => intro; rfl
  | cons c rest ih =>
    by_cases h : (probeCandidate c.env).2 <;> simp [scanPorts, h]
    intro hn
    exact ih hn

/-- C2, counterexample: the output `[USB_b, USB_a, Bluetooth, Unknown]`
satisfies everything `sort_unstable_by_key(port_priority)` guarantees on the
enumeration order `[Unknown, USB_a, Bluetooth, USB_b]` (it is a
priority-ascending permutation), yet it is not the stable order
`[USB_a, USB_b, Bluetooth, Unknown]` — so the claim that equal-priority
candidates are always probed in enumeration order is false. -/
theorem claim2_cex :
    unstableSortByKeyPost port_priority enumExample
      [usbPortB, usbPortA, btPort, unkPort] ∧
    [usbPortB, usbPortA, btPort, unkPort] ≠ [usbPortA, usbPortB, btPort, unkPort] := by
  decide

/-- C2, amended: discovery sorts candidates ascending by the priority key
(USB = 0, PCI = 1, Bluetooth = 2, Unknown = 3) with `sort_unstable_by_key`;
on the enumeration order `[Unknown, USB_a, Bluetooth, USB_b]` every output
the sort's contract permits has probe order priority `[0, 0, 2, 3]`, i.e. is
`[USB_a, USB_b, Bluetooth, Unknown]` or `[USB_b, USB_a, Bluetooth, Unknown]`
— the relative order of the two equal-priority USB entries is not
guaranteed. -/
theorem claim2_priority_sort (l' : List SerialPortInfo)
    (h : unstableSortByKeyPost port_priority enumExample l') :
    l' = [usbPortA, usbPortB, btPort, unkPort] ∨
      l' = [usbPortB, usbPortA, btPort, unkPort] := by
  obtain ⟨hperm, hsort⟩ := h
  have hmem : l' ∈ enumExample.permutations' :=
    List.mem_permutations'.2 hperm.symm
  have hall : ∀ x ∈ enumExample.permutations',
      sortedByKey port_priority x = true →
        x = [usbPortA, usbPortB, btPort, unkPort] ∨
          x = [usbPortB, usbPortA, btPort, unkPort] := by decide
  exact hall l' hmem hsort

/-- C2, witness: `claim2_priority_sort` applied to the stable output. -/
theorem claim2_witness :
    [usbPortA, usbPortB, btPort, unkPort] = [usbPortA, usbPortB, btPort, unkPort] ∨
      [usbPortA, usbPortB, btPort, unkPort] = [usbPortB, usbPortA, btPort, unkPort] :=
  claim2_priority_sort [usbPortA, usbPortB, btPort, unkPort] (by decide)

/-- C3, counterexample: when the handshake round trip completes but the
status byte is not OK (here status 0), `B15F::from` reports the wrapped
board error `CommandError B15FError`, not `DeviceNotSupported` — refuting
the claim that a non-OK status during construction yields the distinct
"device not supported" error. -/
theorem claim3_cex :
    (fromTransport 5 (okT [0, 5])).2 = .error (.CommandError .B15FError) ∧
    (fromTransport 5 (okT [0, 5])).2 ≠ .error .DeviceNotSupported := by
  decide

/-- C3, amended: for a session constructed from an already-open transport
whose handshake response is `[s, e]` for sent random byte `r`: a matching
echo under OK status constructs the session; an OK status with a wrong echo
yields the distinct `DeviceNotSupported`; but a non-OK status yields the
generic wrapped command error `CommandError B15FError`. -/
theorem claim3_mismatch_vs_board_error (r s e : Nat) :
    (s = MSG_OK → e = r → (fromTransport r (okT [s, e])).2 = .ok ()) ∧
    (s = MSG_OK → e ≠ r →
      (fromTransport r (okT [s, e])).2 = .error .DeviceNotSupported) ∧
    (s ≠ MSG_OK →
      (fromTransport r (okT [s, e])).2 = .error (.CommandError .B15FError)) := by
  refine ⟨fun hs he => ?_, fun hs he => ?_, fun hs => ?_⟩
  · simp [fromTransport, test, okT, Transport.readExact, hs, he]
  · simp [fromTransport, test, okT, Transport.readExact, hs, he]
  · simp [fromTransport, test, okT, Transport.readExact, hs]

/-- C3, witness: `claim3_mismatch_vs_board_error` at `r = 5`, response
`[0, 5]`. -/
theorem claim3_witness :
    (fromTransport 5 (okT [0, 5])).2 = .error (.CommandError .B15FError) :=
  (claim3_mismatch_vs_board_error 5 0 5).2.2 (by decide)

/-- C5: the handshake `test` with random byte `r` and two-byte response
`[s, e]` returns `true` when the status is OK and the echo matches, `false`
when the status is OK and the echo differs, and fails with the board error
when the status is not OK. -/
theorem claim5_handshake_cases (r s e : Nat) :
    (s = MSG_OK → e = r → (test r (okT [s, e])).2 = .ok true) ∧
    (s = MSG_OK → e ≠ r → (test r (okT [s, e])).2 = .ok false) ∧
    (s ≠ MSG_OK → (test r (okT [s, e])).2 = .error .B15FError) := by
  refine ⟨fun hs he => ?_, fun hs he => ?_, fun hs => ?_⟩
  · simp [test, okT, Transport.readExact, hs, he]
  · simp [test, okT, Transport.readExact, hs, he]
  · simp [test, okT, Transport.readExact, hs]

/-- C5, witness: `claim5_handshake_cases` at `r = 5` with the three
responses `[0xFF, 5]`, `[0xFF, 6]` and `[0, 5]`. -/
theorem claim5_witness :
    (test 5 (okT [0xFF, 5])).2 = .ok true ∧
    (test 5 (okT [0xFF, 6])).2 = .ok false ∧
    (test 5 (okT [0, 5])).2 = .error .B15FError :=
  ⟨(claim5_handshake_cases 5 0xFF 5).1 rfl rfl,
   (claim5_handshake_cases 5 0xFF 6).2.1 rfl (by decide),
   (claim5_handshake_cases 5 0 5).2.2 (by decide)⟩

/-- C6: for every byte `b` returned by the transport, `digital_read`
returns the bit-reversal of `b` (bit `i` of the result is bit `7 - i` of
`b`); in particular the transport byte `0b0000_0001` decodes to
`0b1000_0000`. -/
theorem claim6_digital_read_reversal (port : Port) (b : Nat) (hb : b < 256) :
    (digital_read port (okT [b])).2 = .ok (reverseBits8 b) ∧
    (∀ i, i < 8 → (reverseBits8 b).testBit i = b.testBit (7 - i)) ∧
    reverseBits8 1 = 128 :=
  ⟨by cases port <;> rfl,
   fun i hi => reverseBits8_testBit b hb i hi,
   by decide⟩

/-- C6, witness: `claim6_digital_read_reversal` at `Port0`, `b = 1`. -/
theorem claim6_witness :
    (digital_read Port.Port0 (okT [1])).2 = .ok (reverseBits8 1) ∧
    (∀ i, i < 8 → (reverseBits8 1).testBit i = Nat.testBit 1 (7 - i)) ∧
    reverseBits8 1 = 128 :=
  claim6_digital_read_reversal Port.Port0 1 (by decide)

/-- C1, counterexample: the handshake `test` — one of the command
operations — reads its two response bytes without any flush of the
transport: its trace contains the read but no flush call, refuting the claim
that every command flushes between the request write and the response
read. -/
theorem claim1_cex :
    Ev.readExact 2 ∈ (test 5 (okT [0xFF, 5])).1 ∧
    Ev.flushCall ∉ (test 5 (okT [0xFF, 5])).1 := by
  decide

/-- C1, amended: every command operation except the handshake (digital
write/read, analog write/read within their domains, PWM frequency and PWM
value) follows the half-duplex discipline — the complete request is written,
then the transport is flushed, and only then is the response read; the
handshake `test`, however, writes its complete request and reads the
response without ever flushing. -/
theorem claim1_flush_discipline (t : Transport) :
    (∀ port value, writeFlushRead [digital_write_opcode port, value] 1
        (digital_write port value t).1) ∧
    (∀ port, writeFlushRead [digital_read_opcode port] 1 (digital_read port t).1) ∧
    (∀ port value, value ≤ 1023 →
        writeFlushRead [analog_write_opcode port, value % 256, value / 256 % 256] 1
          (analog_write port value t).1) ∧
    (∀ port, port ≤ 7 →
        writeFlushRead [RQ_ANALOG_READ, port] 2 (analog_read port t).1) ∧
    (∀ b0 b1 b2 b3, writeFlushRead [RQ_PWM_SET_FREQ, b0, b1, b2, b3] 1
        (set_pwm_frequency b0 b1 b2 b3 t).1) ∧
    (∀ value, writeFlushRead [RQ_PWM_SET_VALUE, value] 1 (set_pwm_vale value t).1) ∧
    (∀ rand, Ev.flushCall ∉ (test rand t).1 ∧
        ((test rand t).1 = [Ev.writeAll [RQ_TEST, rand]] ∨
         (test rand t).1 = [Ev.writeAll [RQ_TEST, rand], Ev.readExact 2])) := by
  obtain ⟨w, f, rd⟩ := t
  refine ⟨fun port value => ?_, fun port => ?_, fun port value hv => ?_,
    fun port hp => ?_, fun b0 b1 b2 b3 => ?_, fun value => ?_, fun rand => ?_⟩
  · cases port <;> cases w <;> cases f <;>
      simp [digital_write, digital_write_opcode, writeFlushRead] <;>
      rcases rd with _ | l <;> simp [Transport.readExact] <;> split <;> (try split) <;> simp
  · cases port <;> cases w <;> cases f <;>
      simp [digital_read, send_digital_read_request, read_digital_response,
        digital_read_opcode, writeFlushRead] <;>
      rcases rd with _ | l <;> simp [Transport.readExact] <;> split <;> (try split) <;> simp
  · have hnot : ¬ value > 1023 := by omega
    cases port <;> cases w <;> cases f <;>
      simp [analog_write, analog_write_opcode, writeFlushRead, hnot] <;>
      rcases rd with _ | l <;> simp [Transport.readExact] <;> split <;> (try split) <;> simp
  · have hnot : ¬ port > 7 := by omega
    cases w <;> cases f <;>
      simp [analog_read, send_analog_read_request, read_analog_response,
        writeFlushRead, hnot] <;>
      rcases rd with _ | l <;> simp [Transport.readExact] <;> split <;> (try split) <;> simp
  · cases w <;> cases f <;>
      simp [set_pwm_frequency, writeFlushRead] <;>
      rcases rd with _ | l <;> simp [Transport.readExact] <;> split <;> (try split) <;> simp
  · cases w <;> cases f <;>
      simp [set_pwm_vale, writeFlushRead] <;>
      rcases rd with _ | l <;> simp [Transport.readExact] <;> split <;> (try split) <;> simp
  · cases w <;>
      simp [test] <;>
      rcases rd with _ | l <;> simp [Transport.readExact] <;> split <;> (try split) <;> simp

/-- C1, witness: `claim1_flush_discipline` on an all-OK transport, at the
analog write of 1023 to Port0. -/
theorem claim1_witness :
    writeFlushRead [analog_write_opcode Port.Port0, 1023 % 256, 1023 / 256 % 256] 1
      (analog_write Port.Port0 1023 (okT [0xFF])).1 :=
  (claim1_flush_discipline (okT [0xFF])).2.2.1 Port.Port0 1023 (by decide)

/-- C4: an analog write of a value above 1023, and an analog read of a
channel above 7, abort by panicking before any transport call is made (the
trace is empty); in-domain values and channels never hit that rejection. -/
theorem claim4_domain_rejection (t : Transport) :
    (∀ port value, 1023 < value →
        analog_write port value t =
          ([], .panicked "analog write value must be between 0 and 1023")) ∧
    (∀ port value msg, value ≤ 1023 →
        (analog_write port value t).2 ≠ .panicked msg) ∧
    (∀ port, 7 < port →
        analog_read port t =
          ([], .panicked "analog read port must be between 0 and 7")) ∧
    (∀ port msg, port ≤ 7 → (analog_read port t).2 ≠ .panicked msg) := by
  obtain ⟨w, f, rd⟩ := t
  refine ⟨fun port value h => ?_, fun port value msg h => ?_,
    fun port h => ?_, fun port msg h => ?_⟩
  · simp [analog_write, h]
  · have hnot : ¬ value > 1023 := by omega
    cases w <;> cases f <;>
      simp [analog_write, hnot] <;>
      rcases rd with _ | l <;> simp [Transport.readExact] <;>
      split <;> (try split) <;> simp
  · simp [analog_read, send_analog_read_request, h]
  · have hnot : ¬ port > 7 := by omega
    cases w <;> cases f <;>
      simp [analog_read, send_analog_read_request, read_analog_response, hnot] <;>
      rcases rd with _ | l <;> simp [Transport.readExact] <;>
      split <;> (try split) <;> simp

/-- C4, witness: `claim4_domain_rejection` at value 1024 (rejected, no
transport calls), value 1023 (no rejection), channel 8 (rejected) and
channel 7 (no rejection). -/
theorem claim4_witness :
    analog_write Port.Port0 1024 (okT [0xFF]) =
      ([], .panicked "analog write value must be between 0 and 1023") ∧
    (analog_write Port.Port0 1023 (okT [0xFF])).2 ≠
      .panicked "analog write value must be between 0 and 1023" ∧
    analog_read 8 (okT [52, 18]) =
      ([], .panicked "analog read port must be between 0 and 7") ∧
    (analog_read 7 (okT [52, 18])).2 ≠
      .panicked "analog read port must be between 0 and 7" :=
  ⟨(claim4_domain_rejection (okT [0xFF])).1 Port.Port0 1024 (by decide),
   (claim4_domain_rejection (okT [0xFF])).2.1 Port.Port0 1023 _ (by decide),
   (claim4_domain_rejection (okT [52, 18])).2.2.1 8 (by decide),
   (claim4_domain_rejection (okT [52, 18])).2.2.2 7 _ (by decide)⟩

/-- `send_analog_read_request` only ever fails with an I/O error. -/
theorem send_analog_read_request_err (port : Nat) (t : Transport)
    (e : B15FCommandError) :
    (send_analog_read_request port t).2 = .err e → e = .IoError := by
  unfold send_analog_read_request
  by_cases h7 : port > 7 <;> cases hw : t.writeOk <;> cases hf : t.flushOk <;>
    simp [h7, hw, hf] <;> exact fun h => h.symm

/-- `read_analog_response` only ever fails with an I/O error: it performs
no status check on the two response bytes. -/
theorem read_analog_response_err (t : Transport) (e : B15FCommandError) :
    (read_analog_response t).2 = .error e → e = .IoError := by
  unfold read_analog_response
  cases h : t.readExact 2 <;> simp <;> exact fun h => h.symm

/-- C7: `analog_read` decodes the two response bytes `[lo, hi]` as the
little-endian value `lo + 256 * hi`, and — performing no status check —
never fails with the board-reported error kind on any transport. -/
theorem claim7_analog_read_le_decode (port lo hi : Nat) (hp : port ≤ 7) :
    (analog_read port (okT [lo, hi])).2 = .ok (lo + 256 * hi) ∧
    (∀ t : Transport, (analog_read port t).2 ≠ .err .B15FError) := by
  have hnot : ¬ port > 7 := by omega
  constructor
  · simp [analog_read, send_analog_read_request, read_analog_response, okT,
      Transport.readExact, hnot]
  · intro t
    cases hs : (send_analog_read_request port t).2 with
    | panicked m => simp [analog_read, hs]
    | err e =>
      have he := send_analog_read_request_err port t e hs
      simp [analog_read, hs, he]
    | ok u =>
      cases hr : (read_analog_response t).2 with
      | error e =>
        have he := read_analog_response_err t e hr
        simp [analog_read, hs, hr, he]
      | ok v => simp [analog_read, hs, hr]

/-- C7, witness: `claim7_analog_read_le_decode` at channel 0 with response
bytes `[0x34, 0x12]`, decoding to `0x1234 = 4660`. -/
theorem claim7_witness :
    (analog_read 0 (okT [52, 18])).2 = .ok (52 + 256 * 18) :=
  (claim7_analog_read_le_decode 0 52 18 (by decide)).1

/-- C8, counterexample: a candidate whose serial open succeeds and whose
construction handshake (`B15F::from`) succeeds is nevertheless skipped by
discovery, because the scan's second `test` call hits an I/O failure — so
"returns the session for the first candidate for which both open and
handshake succeed" is false: with this as the only candidate, discovery
returns none. -/
theorem claim8_cex :
    envSecondTestFails.openOk = true ∧
    open_port envSecondTestFails = .ok () ∧
    (instanceRun (some [candSecondTestFails]) [candSecondTestFails]).2 = none := by
  decide

/-- C8, amended: discovery probes the sorted candidates sequentially and
returns the first candidate whose probe succeeds (`List.find?`); when no
candidate is selected every candidate was probed (failures are skipped, the
scan never aborts) and the result is `none`; and a candidate's probe
succeeds exactly when its open succeeds, its construction handshake passes,
and the scan's second `test` call returns without error (its boolean result
being ignored). -/
theorem claim8_scan_first_success :
    (∀ sorted : List Candidate,
        (scanPorts sorted).2 = sorted.find? fun c => (probeCandidate c.env).2) ∧
    (∀ sorted : List Candidate,
        (scanPorts sorted).2 = none → (scanPorts sorted).1 = sorted) ∧
    (∀ env : CandidateEnv,
        (probeCandidate env).2 = true ↔
          env.openOk = true ∧ (fromTransport env.r1 env.t1).2 = .ok () ∧
            ∃ b, (test env.r2 env.t2).2 = Except.ok b) := by
  refine ⟨scanPorts_snd_eq_find, scanPorts_none_fst, fun env => ?_⟩
  cases ho : env.openOk
  · simp [probeCandidate, ho]
  · cases h1 : (fromTransport env.r1 env.t1).2 with
    | error e => simp [probeCandidate, ho, h1]
    | ok u =>
      cases u
      cases h2 : (test env.r2 env.t2).2 with
      | error e => simp [probeCandidate, ho, h1, h2]
      | ok b => simp [probeCandidate, ho, h1, h2]

/-- C8, witness: `claim8_scan_first_success` — the failing candidate is
probed (not aborted past) even though it is not selected. -/
theorem claim8_witness :
    (scanPorts [candSecondTestFails]).1 = [candSecondTestFails] :=
  claim8_scan_first_success.2.1 [candSecondTestFails] (by decide)

/-- C9, counterexample: a candidate that answers the handshake correctly
exactly once — the construction round trip echoes the random byte, the
second round trip answers status OK with a wrong echo — is selected by
discovery, refuting the claim that such a device is rejected: the second
`test`'s boolean result is discarded by `B15F::instance`. -/
theorem claim9_cex :
    (fromTransport envEchoOnce.r1 envEchoOnce.t1).2 = .ok () ∧
    (test envEchoOnce.r2 envEchoOnce.t2).2 = .ok false ∧
    probeCandidate envEchoOnce = (2, true) ∧
    (instanceRun (some [candEchoOnce]) [candEchoOnce]).2 = some candEchoOnce := by
  decide

/-- C9, amended: a candidate whose open succeeds and whose construction
handshake passes does undergo a second `test` round trip (two in total), but
it is selected exactly when that second call returns without error — the
second round trip's pass/fail boolean is ignored. -/
theorem claim9_second_pass_ignored (env : CandidateEnv)
    (hopen : env.openOk = true)
    (hfirst : (fromTransport env.r1 env.t1).2 = .ok ()) :
    (probeCandidate env).1 = 2 ∧
    ((probeCandidate env).2 = true ↔ ∃ b, (test env.r2 env.t2).2 = Except.ok b) := by
  cases h2 : (test env.r2 env.t2).2 with
  | error e => simp [probeCandidate, hopen, hfirst, h2]
  | ok b => simp [probeCandidate, hopen, hfirst, h2]

/-- C9, witness: `claim9_second_pass_ignored` at the echo-once candidate. -/
theorem claim9_witness :
    (probeCandidate envEchoOnce).1 = 2 ∧
    ((probeCandidate envEchoOnce).2 = true ↔
      ∃ b, (test envEchoOnce.r2 envEchoOnce.t2).2 = Except.ok b) :=
  claim9_second_pass_ignored envEchoOnce (by decide) (by decide)

/-- C10: when the OS-level endpoint enumeration fails, discovery returns
`none` immediately, probing no candidate — the same empty outcome it
returns when every enumerated candidate is probed and fails. -/
theorem claim10_enum_failure_none :
    (∀ sorted : List Candidate, instanceRun none sorted = ([], none)) ∧
    (∀ l : List Candidate, (∀ c ∈ l, (probeCandidate c.env).2 = false) →
        (instanceRun (some l) l).2 = none) := by
  refine ⟨fun sorted => rfl, fun l h => ?_⟩
  show (scanPorts l).2 = none
  rw [scanPorts_snd_eq_find]
  exact List.find?_eq_none.2 fun c hc => by simp [h c hc]

/-- C10, witness: `claim10_enum_failure_none` on a single candidate whose
open fails. -/
theorem claim10_witness :
    (instanceRun (some [candOpenFails]) [candOpenFails]).2 = none :=
  claim10_enum_failure_none.2 [candOpenFails] (by decide)

end B15FRS
